import Mathlib

/-!
Shallow embedding of the secret-sum zero-knowledge contract
(src/zpk/src/lib.rs) and proofs of its specified properties.

Modelling conventions:
* `Address` and `SecretVarId` are identities compared only for equality;
  both are modelled as natural numbers.
* Bytes (`u8`) are natural numbers; `u32` values are natural numbers,
  with `< 2^32` hypotheses where the width matters.
* Rust panics (`assert_eq!`, `Option::unwrap`, `copy_from_slice` length
  mismatch) abort the invocation without producing a state; fallible
  functions therefore return `Except ContractError _`, each `.error`
  constructor naming the panic site it models:
  - `AuthorizationError`: the `assert_eq!(context.sender, state.administrator, ..)`
    in `compute_sum`;
  - `PhaseError`: the `assert_eq!(zk_state.calculation_state, Waiting, ..)`
    in `compute_sum`;
  - `ProtocolViolation`: the `assert_eq!(opened_variables.len(), 1, ..)`
    in `open_sum_variable`;
  - `DecodeError`: the `copy_from_slice` panic in `read_variable_u32_le`
    when the variable's data is not exactly 4 bytes long;
  - `MissingVariable`: the `unwrap` panics in `read_variable_u32_le`
    (absent id, unregistered variable, or `data == None`).
* The external library types (`ContractContext`, `ZkState`, `ZkStateChange`,
  `CalculationStatus`, `EventGroup`, `ZkInputDef` from `pbc_contract_common`)
  are modelled with exactly the fields and variants this contract touches.
-/

/-- Blockchain account address (`pbc_contract_common::address::Address`):
an identity compared only for equality, modelled as a natural number. -/
abbrev Address := Nat

/-- Identifier of a secret variable (`pbc_contract_common::zk::SecretVarId`,
a wrapped `u32`), modelled as a natural number. -/
abbrev SecretVarId := Nat

/-- Secret variable metadata: the contract uses a zero-sized struct
(`struct SecretVarMetadata {}` in src/zpk/src/lib.rs). -/
structure SecretVarMetadata
  deriving DecidableEq

/-- The maximum size of MPC variables (`BITLENGTH_OF_SECRET_VARIABLES` in
src/zpk/src/lib.rs). -/
def BITLENGTH_OF_SECRET_VARIABLES : Nat := 32

/-- Status of the zero-knowledge computation engine
(`pbc_contract_common::zk::CalculationStatus`). The contract only ever
compares against `Waiting`. -/
inductive CalculationStatus where
  | Waiting
  | Calculating
  | Output
  | MaliciousBehaviour
  | Done
  deriving DecidableEq

/-- A secret variable registered with the engine
(`pbc_contract_common::zk::ZkClosed`): its id and, when the variable has
been opened, its raw little-endian bytes. -/
structure ZkClosed where
  variable_id : SecretVarId
  data : Option (List Nat)
  deriving DecidableEq

/-- The zero-knowledge engine state visible to the contract
(`pbc_contract_common::zk::ZkState`): the calculation status and the
registered secret variables. -/
structure ZkState where
  calculation_state : CalculationStatus
  secret_variables : List ZkClosed
  deriving DecidableEq

/-- Embeds `ZkState::get_variable`: looks up a registered secret variable
by its id. -/
def ZkState.get_variable (zk_state : ZkState) (id : SecretVarId) : Option ZkClosed :=
  zk_state.secret_variables.find? (fun v => v.variable_id == id)

/-- State-change requests the contract can hand back to the engine
(`pbc_contract_common::zk::ZkStateChange`); only the three variants this
contract emits are modelled. The `OpenVariables` field is named
`variables` in the source, renamed here because that word is a Lean
keyword. -/
inductive ZkStateChange where
  | StartComputation (output_variable_metadata : List SecretVarMetadata)
  | OpenVariables (variable_ids : List SecretVarId)
  | ContractDone
  deriving DecidableEq

/-- Embeds the `ZkStateChange::start_computation` constructor helper used at
src/zpk/src/lib.rs line 163. -/
def ZkStateChange.start_computation
    (output_variable_metadata : List SecretVarMetadata) : ZkStateChange :=
  ZkStateChange.StartComputation output_variable_metadata

/-- Whether a state-change request is a start-computation request. -/
def is_start_computation : ZkStateChange → Bool
  | ZkStateChange.StartComputation _ => true
  | _ => false

/-- Interaction events (`pbc_contract_common::events::EventGroup`). This
contract never constructs one, so the type needs no constructors: every
event list it returns is literally `vec![]`. -/
inductive EventGroup

/-- Definition of a new secret input slot
(`pbc_contract_common::zk::ZkInputDef`). The first field is named `seal`
in the source, renamed here because that word is a Lean keyword. -/
structure ZkInputDef where
  sealed : Bool
  metadata : SecretVarMetadata
  expected_bit_lengths : List Nat

/-- Call context (`pbc_contract_common::context::ContractContext`); the
contract only reads `sender`. -/
structure ContractContext where
  sender : Address
  deriving DecidableEq

/-- The contract's public state (`ContractState` in src/zpk/src/lib.rs):
the administrator address and the optional final sum. -/
structure ContractState where
  administrator : Address
  sum_result : Option Nat
  deriving DecidableEq

/-- Errors modelling the contract's panic sites; see the module docstring
for the exact source location each constructor embeds. -/
inductive ContractError where
  | AuthorizationError
  | PhaseError
  | ProtocolViolation
  | DecodeError
  | MissingVariable
  deriving DecidableEq

/-- Embeds `initialize` (src/zpk/src/lib.rs lines 64-70); the Rust item is
named `initialize`, renamed here because that word is a Lean keyword.
Sets the administrator to the caller and the result to `None`. -/
def initialize_contract (ctx : ContractContext) (zk_state : ZkState) : ContractState :=
  { administrator := ctx.sender, sum_result := none }

/-- Embeds `add_input` (src/zpk/src/lib.rs lines 85-101): returns the
unchanged state, no events, and a 32-bit input definition. -/
def add_input (context : ContractContext) (state : ContractState) (zk_state : ZkState) :
    ContractState × List EventGroup × ZkInputDef :=
  (state, [],
    { sealed := false
      metadata := {}
      expected_bit_lengths := [BITLENGTH_OF_SECRET_VARIABLES] })

/-- Embeds `inputted_variable` (src/zpk/src/lib.rs lines 119-127): does
nothing, returns the unchanged state. -/
def inputted_variable (context : ContractContext) (state : ContractState)
    (zk_state : ZkState) (inputted_variable_id : SecretVarId) : ContractState :=
  state

/-- Embeds `compute_sum` (src/zpk/src/lib.rs lines 143-165). The source
asserts `context.sender == state.administrator` first, then
`zk_state.calculation_state == Waiting`; on success it returns the
unchanged state, no events, and a single start-computation request. -/
def compute_sum (context : ContractContext) (state : ContractState) (zk_state : ZkState) :
    Except ContractError (ContractState × List EventGroup × List ZkStateChange) :=
  if context.sender = state.administrator then
    if zk_state.calculation_state = CalculationStatus.Waiting then
      Except.ok (state, [], [ZkStateChange.start_computation [{}]])
    else
      Except.error ContractError.PhaseError
  else
    Except.error ContractError.AuthorizationError

/-- Embeds `sum_compute_complete` (src/zpk/src/lib.rs lines 184-198):
returns the unchanged state, no events, and one request opening exactly
the given output variables. The source contains no assertion, so this
handler is total. -/
def sum_compute_complete (context : ContractContext) (state : ContractState)
    (zk_state : ZkState) (output_variables : List SecretVarId) :
    ContractState × List EventGroup × List ZkStateChange :=
  (state, [], [ZkStateChange.OpenVariables output_variables])

/-- Embeds `<u32>::from_le_bytes` applied to the 4-byte buffer filled in
`read_variable_u32_le` (src/zpk/src/lib.rs line 252): interprets 4 bytes
as a little-endian unsigned 32-bit integer. -/
def u32_from_le_bytes : List Nat → Nat
  | [b0, b1, b2, b3] => b0 + 256 * b1 + 65536 * b2 + 16777216 * b3
  | _ => 0

/-- The little-endian encoding of a `u32`, mirroring `u32::to_le_bytes`;
used to state the round-trip property of the decoder. -/
def u32_to_le_bytes (value : Nat) : List Nat :=
  [value % 256, value / 256 % 256, value / 65536 % 256, value / 16777216 % 256]

/-- Embeds `read_variable_u32_le` (src/zpk/src/lib.rs lines 244-253).
The source unwraps the optional id, unwraps the engine lookup, unwraps the
variable's data (each unwrap panic is `MissingVariable` here), then copies
the data into a 4-byte buffer — `copy_from_slice` panics unless the data is
exactly 4 bytes (`DecodeError` here) — and decodes it little-endian. -/
def read_variable_u32_le (zk_state : ZkState) (sum_variable_id : Option SecretVarId) :
    Except ContractError Nat :=
  match sum_variable_id with
  | none => Except.error ContractError.MissingVariable
  | some id =>
    match zk_state.get_variable id with
    | none => Except.error ContractError.MissingVariable
    | some v =>
      match v.data with
      | none => Except.error ContractError.MissingVariable
      | some bytes =>
        if bytes.length = 4 then Except.ok (u32_from_le_bytes bytes)
        else Except.error ContractError.DecodeError

/-- Embeds `open_sum_variable` (src/zpk/src/lib.rs lines 217-232). The
source asserts exactly one opened variable (`ProtocolViolation` here),
reads its value via `read_variable_u32_le` on `opened_variables.get(0)`,
stores it in `sum_result`, and requests `ContractDone`. -/
def open_sum_variable (context : ContractContext) (state : ContractState)
    (zk_state : ZkState) (opened_variables : List SecretVarId) :
    Except ContractError (ContractState × List EventGroup × List ZkStateChange) :=
  if opened_variables.length = 1 then
    match read_variable_u32_le zk_state opened_variables.head? with
    | Except.ok sum =>
      Except.ok ({ state with sum_result := some sum }, [], [ZkStateChange.ContractDone])
    | Except.error e => Except.error e
  else
    Except.error ContractError.ProtocolViolation

/-! Theorems. Claim C1 concerns `compute_sum` when the engine is not in
the `Waiting` status (spec phase not `Collecting`). The source checks the
administrator assertion before the status assertion, so a non-admin caller
in a non-Waiting status fails with `AuthorizationError`, not `PhaseError`:
the claim as stated is refuted and holds only for the administrator. -/

/-- C1 (counterexample): with engine status `Calculating` (not `Waiting`)
and a caller (address 2) different from the administrator (address 1),
`compute_sum` fails with `AuthorizationError`, not the `PhaseError` the
claim requires for every caller. -/
theorem c1_counterexample :
    (ZkState.mk CalculationStatus.Calculating []).calculation_state ≠
      CalculationStatus.Waiting ∧
    compute_sum (ContractContext.mk 2) (ContractState.mk 1 none)
        (ZkState.mk CalculationStatus.Calculating []) =
      Except.error ContractError.AuthorizationError ∧
    ContractError.AuthorizationError ≠ ContractError.PhaseError := by
  refine ⟨by decide, rfl, by decide⟩

/-- C1 (amended): when the engine status is not `Waiting`, `compute_sum`
always fails and returns no new state; the failure is a `PhaseError` when
the caller is the administrator, and an `AuthorizationError` otherwise
(the authorization assertion runs first). -/
theorem c1_compute_sum_not_waiting (ctx : ContractContext) (state : ContractState)
    (zk_state : ZkState)
    (h : zk_state.calculation_state ≠ CalculationStatus.Waiting) :
    (ctx.sender = state.administrator →
      compute_sum ctx state zk_state = Except.error ContractError.PhaseError) ∧
    (ctx.sender ≠ state.administrator →
      compute_sum ctx state zk_state = Except.error ContractError.AuthorizationError) ∧
    (∀ r, compute_sum ctx state zk_state ≠ Except.ok r) := by
  unfold compute_sum
  by_cases hs : ctx.sender = state.administrator <;> simp [hs, h]

/-- C1 (witness): instantiation of the amended claim with the administrator
(address 1) calling while the engine status is `Calculating`. -/
theorem c1_witness :
    compute_sum (ContractContext.mk 1) (ContractState.mk 1 none)
        (ZkState.mk CalculationStatus.Calculating []) =
      Except.error ContractError.PhaseError :=
  (c1_compute_sum_not_waiting (ContractContext.mk 1) (ContractState.mk 1 none)
    (ZkState.mk CalculationStatus.Calculating []) (by decide)).1 rfl

/-- C2: when the engine status is `Waiting` (spec phase `Collecting`) and
the caller is not the administrator, `compute_sum` fails with
`AuthorizationError` and returns no new state. -/
theorem c2_compute_sum_not_admin (ctx : ContractContext) (state : ContractState)
    (zk_state : ZkState)
    (hW : zk_state.calculation_state = CalculationStatus.Waiting)
    (hs : ctx.sender ≠ state.administrator) :
    compute_sum ctx state zk_state = Except.error ContractError.AuthorizationError ∧
    (∀ r, compute_sum ctx state zk_state ≠ Except.ok r) := by
  unfold compute_sum
  simp [hs]

/-- C2 (witness): caller 2 against administrator 1 with the engine
`Waiting` is rejected with `AuthorizationError`. -/
theorem c2_witness :
    compute_sum (ContractContext.mk 2) (ContractState.mk 1 none)
        (ZkState.mk CalculationStatus.Waiting []) =
      Except.error ContractError.AuthorizationError :=
  (c2_compute_sum_not_admin (ContractContext.mk 2) (ContractState.mk 1 none)
    (ZkState.mk CalculationStatus.Waiting []) rfl (by decide)).1

/-- C3: when the caller is the administrator and the engine status is
`Waiting`, `compute_sum` succeeds, returns the state unchanged with no
events and exactly one start-computation request; and no other handler
that returns state-change requests (`sum_compute_complete`,
`open_sum_variable`) ever emits a start-computation request
(`initialize`, `add_input` and `inputted_variable` return no
`ZkStateChange` list at all, by their types). -/
theorem c3_compute_sum_starts (ctx : ContractContext) (state : ContractState)
    (zk_state : ZkState)
    (hA : ctx.sender = state.administrator)
    (hW : zk_state.calculation_state = CalculationStatus.Waiting) :
    compute_sum ctx state zk_state =
      Except.ok (state, [], [ZkStateChange.StartComputation [SecretVarMetadata.mk]]) ∧
    (∀ ctx2 state2 zk2 ids c,
      c ∈ (sum_compute_complete ctx2 state2 zk2 ids).2.2 →
      is_start_computation c = false) ∧
    (∀ ctx2 state2 zk2 ids r,
      open_sum_variable ctx2 state2 zk2 ids = Except.ok r →
      ∀ c, c ∈ r.2.2 → is_start_computation c = false) := by
  refine ⟨by simp [compute_sum, hA, hW, ZkStateChange.start_computation], ?_, ?_⟩
  · intro ctx2 state2 zk2 ids c hc
    simp [sum_compute_complete] at hc
    simp [hc, is_start_computation]
  · intro ctx2 state2 zk2 ids r hr c hc
    unfold open_sum_variable at hr
    split at hr
    · split at hr
      · cases hr
        simp at hc
        simp [hc, is_start_computation]
      · cases hr
    · cases hr

/-- C3 (witness): instantiation with administrator 1 calling while the
engine is `Waiting`. -/
theorem c3_witness :
    compute_sum (ContractContext.mk 1) (ContractState.mk 1 none)
        (ZkState.mk CalculationStatus.Waiting []) =
      Except.ok (ContractState.mk 1 none, [],
        [ZkStateChange.StartComputation [SecretVarMetadata.mk]]) :=
  (c3_compute_sum_starts (ContractContext.mk 1) (ContractState.mk 1 none)
    (ZkState.mk CalculationStatus.Waiting []) rfl rfl).1

/-- C4 (counterexample): `sum_compute_complete` called with the two-element
output-id list `[1, 2]` does not abort: it returns normally, with one
`OpenVariables` request naming both ids. The claimed fatal
`ProtocolViolation` on length ≠ 1 does not exist in this handler (the
source has no assertion there; the length-1 assertion lives in
`open_sum_variable`). -/
theorem c4_counterexample :
    sum_compute_complete (ContractContext.mk 1) (ContractState.mk 1 none)
        (ZkState.mk CalculationStatus.Calculating []) [1, 2] =
      (ContractState.mk 1 none, [], [ZkStateChange.OpenVariables [1, 2]]) := rfl

/-- C4 (amended): `sum_compute_complete` never aborts: for an output-id
list of any length it returns the state unchanged, no events, and exactly
one open request naming exactly the given ids (so with a length-1 list,
exactly one open request naming that id). The length-must-be-1 check that
panics (`ProtocolViolation`) is enforced later, by `open_sum_variable`. -/
theorem c4_sum_compute_complete (ctx : ContractContext) (state : ContractState)
    (zk_state : ZkState) (output_variables : List SecretVarId) :
    sum_compute_complete ctx state zk_state output_variables =
      (state, [], [ZkStateChange.OpenVariables output_variables]) ∧
    (output_variables.length ≠ 1 →
      open_sum_variable ctx state zk_state output_variables =
        Except.error ContractError.ProtocolViolation) := by
  refine ⟨rfl, fun h => ?_⟩
  unfold open_sum_variable
  simp [h]

/-- C4 (witness): instantiation with the empty output-id list: the
complete-handler returns normally and the opened-handler rejects it with
`ProtocolViolation`. -/
theorem c4_witness :
    sum_compute_complete (ContractContext.mk 1) (ContractState.mk 1 none)
        (ZkState.mk CalculationStatus.Calculating []) [] =
      (ContractState.mk 1 none, [], [ZkStateChange.OpenVariables []]) ∧
    open_sum_variable (ContractContext.mk 1) (ContractState.mk 1 none)
        (ZkState.mk CalculationStatus.Calculating []) [] =
      Except.error ContractError.ProtocolViolation :=
  ⟨(c4_sum_compute_complete (ContractContext.mk 1) (ContractState.mk 1 none)
      (ZkState.mk CalculationStatus.Calculating []) []).1,
   (c4_sum_compute_complete (ContractContext.mk 1) (ContractState.mk 1 none)
      (ZkState.mk CalculationStatus.Calculating []) []).2 (by decide)⟩

/-- C5: the little-endian `u32` decoder round-trips: for every value below
`2^32`, encoding it to its 4 little-endian bytes and decoding — directly,
and through `read_variable_u32_le` on an engine state holding those bytes —
returns the original value. -/
theorem c5_u32_le_roundtrip (n : Nat) (h : n < 4294967296) :
    u32_from_le_bytes (u32_to_le_bytes n) = n ∧
    (∀ zk_state id v, ZkState.get_variable zk_state id = some v →
      v.data = some (u32_to_le_bytes n) →
      read_variable_u32_le zk_state (some id) = Except.ok n) := by
  have h1 : u32_from_le_bytes (u32_to_le_bytes n) = n := by
    simp only [u32_to_le_bytes, u32_from_le_bytes]
    omega
  refine ⟨h1, fun zk_state id v hv hd => ?_⟩
  have hlen : (u32_to_le_bytes n).length = 4 := rfl
  simp only [read_variable_u32_le, hv, hd, hlen, if_pos, h1]

/-- C5 (witness): round trip at the value 305419896 (hex 12345678). -/
theorem c5_witness :
    u32_from_le_bytes (u32_to_le_bytes 305419896) = 305419896 :=
  (c5_u32_le_roundtrip 305419896 (by decide)).1

/-- C6: when the bytes stored for the looked-up variable do not have length
exactly 4, `read_variable_u32_le` fails with `DecodeError` (the
`copy_from_slice` panic) and never returns a `u32`: no truncation or
padding occurs. -/
theorem c6_decode_length_check (zk_state : ZkState) (id : SecretVarId)
    (v : ZkClosed) (bytes : List Nat)
    (hv : ZkState.get_variable zk_state id = some v)
    (hd : v.data = some bytes) (hl : bytes.length ≠ 4) :
    read_variable_u32_le zk_state (some id) = Except.error ContractError.DecodeError ∧
    (∀ n, read_variable_u32_le zk_state (some id) ≠ Except.ok n) := by
  simp only [read_variable_u32_le, hv, hd, if_neg hl]
  simp

/-- C6 (witness): a registered variable holding only 3 bytes is rejected
with `DecodeError`. -/
theorem c6_witness :
    read_variable_u32_le
        (ZkState.mk CalculationStatus.Done [ZkClosed.mk 1 (some [5, 0, 0])]) (some 1) =
      Except.error ContractError.DecodeError :=
  (c6_decode_length_check
    (ZkState.mk CalculationStatus.Done [ZkClosed.mk 1 (some [5, 0, 0])]) 1
    (ZkClosed.mk 1 (some [5, 0, 0])) [5, 0, 0] rfl rfl (by decide)).1

/-- C7: `open_sum_variable` called with exactly one opened id whose stored
data is the bytes `[5, 0, 0, 0]` decodes the value 5, returns the state
with `sum_result = some 5`, and requests the terminal `ContractDone`. -/
theorem c7_open_sum_variable_five (ctx : ContractContext) (state : ContractState)
    (zk_state : ZkState) (id : SecretVarId) (v : ZkClosed)
    (hv : ZkState.get_variable zk_state id = some v)
    (hd : v.data = some [5, 0, 0, 0]) :
    open_sum_variable ctx state zk_state [id] =
      Except.ok ({ state with sum_result := some 5 }, [],
        [ZkStateChange.ContractDone]) := by
  simp only [open_sum_variable, read_variable_u32_le, List.length_singleton,
    if_pos, List.head?, hv, hd]
  norm_num [u32_from_le_bytes]

/-- C7 (witness): concrete instantiation with variable 1 holding
`[5, 0, 0, 0]`. -/
theorem c7_witness :
    open_sum_variable (ContractContext.mk 1) (ContractState.mk 1 none)
        (ZkState.mk CalculationStatus.Calculating [ZkClosed.mk 1 (some [5, 0, 0, 0])]) [1] =
      Except.ok (ContractState.mk 1 (some 5), [], [ZkStateChange.ContractDone]) :=
  c7_open_sum_variable_five (ContractContext.mk 1) (ContractState.mk 1 none)
    (ZkState.mk CalculationStatus.Calculating [ZkClosed.mk 1 (some [5, 0, 0, 0])]) 1
    (ZkClosed.mk 1 (some [5, 0, 0, 0])) rfl rfl

/-- C8: the administrator is set exactly once, at initialization, to the
caller's identity, and every other handler returns a state whose
administrator equals the input state's administrator (on success for the
fallible handlers; a failure returns no state at all). -/
theorem c8_administrator_immutable (ctx : ContractContext) (state : ContractState)
    (zk_state : ZkState) (id : SecretVarId) (ids : List SecretVarId) :
    (initialize_contract ctx zk_state).administrator = ctx.sender ∧
    (add_input ctx state zk_state).1.administrator = state.administrator ∧
    (inputted_variable ctx state zk_state id).administrator = state.administrator ∧
    (∀ r, compute_sum ctx state zk_state = Except.ok r →
      r.1.administrator = state.administrator) ∧
    (sum_compute_complete ctx state zk_state ids).1.administrator = state.administrator ∧
    (∀ r, open_sum_variable ctx state zk_state ids = Except.ok r →
      r.1.administrator = state.administrator) := by
  refine ⟨rfl, rfl, rfl, ?_, rfl, ?_⟩
  · intro r hr
    unfold compute_sum at hr
    split at hr
    · split at hr
      · cases hr; rfl
      · cases hr
    · cases hr
  · intro r hr
    unfold open_sum_variable at hr
    split at hr
    · split at hr
      · cases hr; rfl
      · cases hr
    · cases hr

/-- C8 (witness): instantiation on a successful `compute_sum` call by
administrator 1 while the engine is `Waiting`: the returned state keeps
administrator 1. -/
theorem c8_witness :
    ((ContractState.mk 1 none, ([] : List EventGroup),
        [ZkStateChange.StartComputation [SecretVarMetadata.mk]]) :
      ContractState × List EventGroup × List ZkStateChange).1.administrator =
      (ContractState.mk 1 none).administrator :=
  (c8_administrator_immutable (ContractContext.mk 1) (ContractState.mk 1 none)
      (ZkState.mk CalculationStatus.Waiting []) 0 []).2.2.2.1
    (ContractState.mk 1 none, [], [ZkStateChange.StartComputation [SecretVarMetadata.mk]])
    rfl

/-- C9: `sum_result` is `none` at initialization, is preserved by
`add_input`, `inputted_variable`, `compute_sum` and
`sum_compute_complete`, and is written only by `open_sum_variable`
(the Computing-to-Done transition), which on success stores exactly the
value decoded from the opened variable. -/
theorem c9_result_written_once (ctx : ContractContext) (state : ContractState)
    (zk_state : ZkState) (id : SecretVarId) (ids : List SecretVarId) :
    (initialize_contract ctx zk_state).sum_result = none ∧
    (add_input ctx state zk_state).1.sum_result = state.sum_result ∧
    (inputted_variable ctx state zk_state id).sum_result = state.sum_result ∧
    (∀ r, compute_sum ctx state zk_state = Except.ok r →
      r.1.sum_result = state.sum_result) ∧
    (sum_compute_complete ctx state zk_state ids).1.sum_result = state.sum_result ∧
    (∀ r, open_sum_variable ctx state zk_state ids = Except.ok r →
      ∃ n, r.1.sum_result = some n ∧
        read_variable_u32_le zk_state ids.head? = Except.ok n) := by
  refine ⟨rfl, rfl, rfl, ?_, rfl, ?_⟩
  · intro r hr
    unfold compute_sum at hr
    split at hr
    · split at hr
      · cases hr; rfl
      · cases hr
    · cases hr
  · intro r hr
    unfold open_sum_variable at hr
    split at hr
    · split at hr
      · rename_i sum heq
        cases hr
        exact ⟨sum, rfl, heq⟩
      · cases hr
    · cases hr

/-- C9 (witness): instantiation on a successful `open_sum_variable` call:
the returned state holds the decoded value 5. -/
theorem c9_witness :
    ∃ n, ((ContractState.mk 1 (some 5), ([] : List EventGroup),
        [ZkStateChange.ContractDone]) :
      ContractState × List EventGroup × List ZkStateChange).1.sum_result = some n ∧
      read_variable_u32_le
        (ZkState.mk CalculationStatus.Calculating [ZkClosed.mk 1 (some [5, 0, 0, 0])])
        ([1] : List SecretVarId).head? = Except.ok n :=
  (c9_result_written_once (ContractContext.mk 1) (ContractState.mk 1 none)
      (ZkState.mk CalculationStatus.Calculating [ZkClosed.mk 1 (some [5, 0, 0, 0])]) 0 [1]).2.2.2.2.2
    (ContractState.mk 1 (some 5), [], [ZkStateChange.ContractDone]) rfl

/-- Helper: `read_variable_u32_le` applied to a present id, with the outer
match reduced; makes the lookup scrutinee accessible to `split`. -/
theorem read_variable_u32_le_some (zk_state : ZkState) (id : SecretVarId) :
    read_variable_u32_le zk_state (some id) =
      match zk_state.get_variable id with
      | none => Except.error ContractError.MissingVariable
      | some v =>
        match v.data with
        | none => Except.error ContractError.MissingVariable
        | some bytes =>
          if bytes.length = 4 then Except.ok (u32_from_le_bytes bytes)
          else Except.error ContractError.DecodeError := rfl

/-- Helper: a successful read requires the id to resolve to a registered
variable with present 4-byte data, and returns its decoded value. -/
theorem read_variable_u32_le_ok (zk_state : ZkState) (id : SecretVarId) (n : Nat)
    (h : read_variable_u32_le zk_state (some id) = Except.ok n) :
    ∃ v bytes, ZkState.get_variable zk_state id = some v ∧ v.data = some bytes ∧
      bytes.length = 4 ∧ n = u32_from_le_bytes bytes := by
  rw [read_variable_u32_le_some] at h
  split at h
  · cases h
  · rename_i v hg
    split at h
    · cases h
    · rename_i bytes hd
      split at h
      · rename_i hl
        cases h
        exact ⟨v, bytes, hg, hd, hl, rfl⟩
      · cases h

/-- C10: `open_sum_variable` with a single opened id aborts (the `unwrap`
panics, modelled as `MissingVariable`) whenever the id is not registered
in the engine state or the registered variable's data is absent; and any
successful call requires the id to resolve, through the engine state, to
present 4-byte data, whose decoded value is what gets stored. -/
theorem c10_open_requires_present_data (ctx : ContractContext) (state : ContractState)
    (zk_state : ZkState) (id : SecretVarId) :
    (ZkState.get_variable zk_state id = none →
      open_sum_variable ctx state zk_state [id] =
        Except.error ContractError.MissingVariable) ∧
    (∀ v, ZkState.get_variable zk_state id = some v → v.data = none →
      open_sum_variable ctx state zk_state [id] =
        Except.error ContractError.MissingVariable) ∧
    (∀ r, open_sum_variable ctx state zk_state [id] = Except.ok r →
      ∃ v bytes, ZkState.get_variable zk_state id = some v ∧
        v.data = some bytes ∧ bytes.length = 4 ∧
        r.1.sum_result = some (u32_from_le_bytes bytes)) := by
  refine ⟨fun hv => ?_, fun v hv hd => ?_, fun r hr => ?_⟩
  · simp [open_sum_variable, read_variable_u32_le, hv]
  · simp [open_sum_variable, read_variable_u32_le, hv, hd]
  · unfold open_sum_variable at hr
    simp only [List.length_singleton, if_pos, List.head?] at hr
    split at hr
    · rename_i sum heq
      cases hr
      obtain ⟨v, bytes, hg, hd, hl, hn⟩ := read_variable_u32_le_ok _ _ _ heq
      exact ⟨v, bytes, hg, hd, hl, by rw [hn]⟩
    · cases hr

/-- C10 (witness): opening id 1 against an engine state with no registered
variables aborts with `MissingVariable`. -/
theorem c10_witness :
    open_sum_variable (ContractContext.mk 1) (ContractState.mk 1 none)
        (ZkState.mk CalculationStatus.Calculating []) [1] =
      Except.error ContractError.MissingVariable :=
  (c10_open_requires_present_data (ContractContext.mk 1) (ContractState.mk 1 none)
      (ZkState.mk CalculationStatus.Calculating []) 1).1 rfl
